import Mathlib

set_option maxRecDepth 8000

namespace ContextStream

/-! Shallow embedding of the ContextStream MCP server's resilient dispatch
layer (the HTTP client in client code), the auth overlay context
(auth-context.ts) and the HTTP gateway front door (http-gateway.ts).
JavaScript string-truthiness (undefined and the empty string are falsy) is
modelled explicitly where the source relies on it. -/

/-- JavaScript truthiness of an optional string value: undefined and the
empty string are falsy. -/
def jsTruthy : Option String → Bool
  | none => false
  | some s => s ≠ ""

/-- JavaScript logical-or of two optional string values, as used for header
fallbacks in the source: a || b yields b when a is undefined or empty. -/
def jsOr (a b : Option String) : Option String :=
  match a with
  | none => b
  | some s => if s = "" then b else some s

/-- Error taxonomy of the HTTP client: maps a numeric status signal to a
stable error-kind string (statusToCode in the client source); status 0
stands for absence of a response (network level failure). -/
def statusToCode (status : Nat) : String :=
  match status with
  | 0 => "NETWORK_ERROR"
  | 400 => "BAD_REQUEST"
  | 401 => "UNAUTHORIZED"
  | 403 => "FORBIDDEN"
  | 404 => "NOT_FOUND"
  | 409 => "CONFLICT"
  | 422 => "VALIDATION_ERROR"
  | 429 => "RATE_LIMITED"
  | 500 => "INTERNAL_ERROR"
  | 502 => "BAD_GATEWAY"
  | 503 => "SERVICE_UNAVAILABLE"
  | 504 => "GATEWAY_TIMEOUT"
  | _ => "UNKNOWN_ERROR"

/-- Classified error thrown by the HTTP client (HttpError in the source):
a status signal plus a human-readable message; the error-kind code is
derived from the status by statusToCode, as in the HttpError constructor. -/
structure HttpError where
  status : Nat
  message : String
deriving DecidableEq

/-- Error-kind code of a classified error, set from the status in the
HttpError constructor of the source. -/
def HttpError.code (e : HttpError) : String := statusToCode e.status

/-- Status codes the client treats as retryable (RETRYABLE_STATUSES). -/
def RETRYABLE_STATUSES : List Nat := [408, 429, 500, 502, 503, 504]

/-- Default maximum number of retries beyond the first attempt. -/
def MAX_RETRIES : Nat := 3

/-- Default base backoff delay in milliseconds. -/
def BASE_DELAY : Nat := 1000

/-- Outcome delivered by the environment for one dispatch attempt: the fetch
call throws a non-abort network error, throws an abort caused by the
180-second per-attempt timer, throws an abort caused by the caller's
cancellation signal, or yields a response with a status, an optional numeric
retry-after directive (in seconds) and a body.  The body string stands for
the decoded payload; on failure it also stands for the extracted message
(payload message or error field, falling back to the protocol status text). -/
inductive AttemptOutcome where
  | networkError (msg : String)
  | abortTimeout
  | abortCancelled
  | response (status : Nat) (retryAfter : Option Nat) (body : String)
deriving DecidableEq

/-- Error thrown when the caller's cancellation signal aborted the attempt. -/
def cancelledError : HttpError := ⟨0, "Request cancelled by user"⟩

/-- Error thrown when the per-attempt 180-second timer aborted the attempt. -/
def timeoutError : HttpError := ⟨0, "Request timeout after 180 seconds"⟩

/-- Response.ok of the fetch API: status in the 200 to 299 range. -/
def isOk (status : Nat) : Bool := 200 ≤ status && status < 300

/-- Final result of one logical call: the decoded payload returned, or the
single classified error thrown. -/
inductive ReqResult where
  | ok (payload : String)
  | error (e : HttpError)
deriving DecidableEq

/-- Trace of one run of the retry loop: the final result, the number of
attempts made, and the backoff delay (milliseconds) slept after each
retried attempt, in order. -/
structure RunTrace where
  result : ReqResult
  attemptsMade : Nat
  delays : List Nat
deriving DecidableEq

/-- Retry loop of the client's request function.  The oracle o gives the
outcome of each attempt by its index.  fuel counts the loop iterations still
allowed (the source loop runs attempt = 0 .. maxRetries); the fuel-exhausted
branch mirrors the dead throw after the loop.  Branches follow the source:
an abort is rethrown at once (cancellation checked before timeout); other
fetch errors retry with exponential backoff while attempts remain; a non-ok
response retries only for a retryable status while attempts remain, with the
retry-after directive (seconds, times 1000) overriding the exponential
delay; an ok response returns its payload. -/
def requestGo (o : Nat → AttemptOutcome) (maxRetries baseDelay : Nat) :
    Nat → Nat → RunTrace
  | _, 0 => ⟨.error ⟨0, "Request failed after retries"⟩, 0, []⟩
  | attempt, fuel + 1 =>
    match o attempt with
    | .abortCancelled => ⟨.error cancelledError, 1, []⟩
    | .abortTimeout => ⟨.error timeoutError, 1, []⟩
    | .networkError msg =>
      if attempt < maxRetries then
        let rest := requestGo o maxRetries baseDelay (attempt + 1) fuel
        ⟨rest.result, rest.attemptsMade + 1, (baseDelay * 2 ^ attempt) :: rest.delays⟩
      else ⟨.error ⟨0, msg⟩, 1, []⟩
    | .response status retryAfter body =>
      if isOk status then ⟨.ok body, 1, []⟩
      else if status ∈ RETRYABLE_STATUSES ∧ attempt < maxRetries then
        let d := match retryAfter with
          | some n => n * 1000
          | none => baseDelay * 2 ^ attempt
        let rest := requestGo o maxRetries baseDelay (attempt + 1) fuel
        ⟨rest.result, rest.attemptsMade + 1, d :: rest.delays⟩
      else ⟨.error ⟨status, body⟩, 1, []⟩

/-- The client's request function, reduced to its retry control flow: the
retry budget and base delay default to MAX_RETRIES and BASE_DELAY when the
options carry none, and the loop runs attempts 0 .. maxRetries. -/
def request (o : Nat → AttemptOutcome) (retries retryDelay : Option Nat) : RunTrace :=
  let maxRetries := retries.getD MAX_RETRIES
  let baseDelay := retryDelay.getD BASE_DELAY
  requestGo o maxRetries baseDelay 0 (maxRetries + 1)

/-- An attempt outcome on which the source loop is willing to retry (budget
permitting): a network-level fetch error, or a non-ok response whose status
is in RETRYABLE_STATUSES.  Aborts (timeout or cancellation) are rethrown
before the retry branches and are never retried. -/
def retryableOutcome : AttemptOutcome → Bool
  | .networkError _ => true
  | .response status _ _ => !isOk status && decide (status ∈ RETRYABLE_STATUSES)
  | _ => false

/-- Retry-after directive carried by an attempt outcome, when any. -/
def retryAfterOf : AttemptOutcome → Option Nat
  | .response _ ra _ => ra
  | _ => none

/-- Auth overlay (AuthOverride in auth-context.ts): a per-request identity
override with optional credentials and scope identifiers. -/
structure AuthOverride where
  apiKey : Option String := none
  jwt : Option String := none
  workspaceId : Option String := none
  projectId : Option String := none
deriving DecidableEq

/-- Reader of the ambient auth context (getAuthOverride): the store holds
the value installed by the innermost runWithAuthOverride scope, which may
itself be null; outside any scope the store is undefined and the reader
yields null. -/
def getAuthOverride (store : Option (Option AuthOverride)) : Option AuthOverride :=
  store.getD none

/-- Identity and content headers set by the client's request function: the
content type and user agent are always present, the X-API-Key header is set
exactly when a (truthy) API key is configured, and the Authorization header
carries the bearer token exactly when a (truthy) jwt is configured. -/
def buildHeaders (apiKey jwt : Option String) (userAgent : String) :
    List (String × String) :=
  [("Content-Type", "application/json"), ("User-Agent", userAgent)]
    ++ (match apiKey with
        | some k => if k = "" then [] else [("X-API-Key", k)]
        | none => [])
    ++ (match jwt with
        | some j => if j = "" then [] else [("Authorization", "Bearer " ++ j)]
        | none => [])

/-- First value recorded for a header name (header names here are distinct,
so this is the record lookup of the source's header object). -/
def lookupHeader (name : String) : List (String × String) → Option String
  | [] => none
  | (n, v) :: rest => if n = name then some v else lookupHeader name rest

/-- Modelled from the spec: the client that issues outbound calls
(src/client.ts, absent from src/) runs inside the ambient auth scope and
derives the outbound identity headers from whatever credential fields are
present in the active Auth Overlay read via getAuthOverride; with no active
overlay, or an overlay carrying neither credential, no identity header is
applied and the call proceeds unauthenticated. -/
def outboundHeaders (store : Option (Option AuthOverride)) (userAgent : String) :
    List (String × String) :=
  match getAuthOverride store with
  | some o => buildHeaders o.apiKey o.jwt userAgent
  | none => buildHeaders none none userAgent

/-- Value of one inbound HTTP header as node delivers it: absent, a single
string, or a list of strings. -/
inductive HeaderValue where
  | absent
  | single (s : String)
  | multi (l : List String)
deriving DecidableEq

/-- normalizeHeaderValue of http-gateway.ts: a falsy value (absent or the
empty string) yields undefined; an array yields its first element (an empty
array is truthy in JavaScript, so it falls through to the head lookup). -/
def normalizeHeaderValue : HeaderValue → Option String
  | .absent => none
  | .single s => if s = "" then none else some s
  | .multi l => l.head?

/-- looksLikeJwt of http-gateway.ts: three dot-separated non-empty parts. -/
def looksLikeJwt (token : String) : Bool :=
  let parts := token.splitOn "."
  parts.length == 3 && parts.all (fun part => 0 < part.length)

/-- The inbound request headers the gateway reads, by header name. -/
structure Headers where
  xApiKey : HeaderValue := .absent
  xContextstreamApiKey : HeaderValue := .absent
  xContextstreamJwt : HeaderValue := .absent
  authorization : HeaderValue := .absent
  xContextstreamWorkspaceId : HeaderValue := .absent
  xWorkspaceId : HeaderValue := .absent
  xContextstreamProjectId : HeaderValue := .absent
  xProjectId : HeaderValue := .absent
  mcpSessionId : HeaderValue := .absent
deriving DecidableEq

/-- Kind of the credential token attached to the request, when any. -/
inductive TokenType where
  | api_key
  | jwt
deriving DecidableEq

/-- extractAuthOverride of http-gateway.ts: precedence is the dedicated jwt
header, then a dedicated API-key header, then a bearer-style authorization
header sniffed by shape (token-shaped versus opaque key); workspace and
project scope headers are read independently.  With no credential but some
scope header, a scope-only override is produced; with no header at all the
fallback (the session's previously recorded override) is returned. -/
def extractAuthOverride (h : Headers) (fallback : Option AuthOverride) :
    Option AuthOverride × Option TokenType :=
  let apiKey := jsOr (normalizeHeaderValue h.xApiKey)
    (normalizeHeaderValue h.xContextstreamApiKey)
  let jwtHeader := normalizeHeaderValue h.xContextstreamJwt
  let authHeader := normalizeHeaderValue h.authorization
  let token : Option String :=
    match authHeader with
    | none => none
    | some ah =>
      match ah.splitOn " " with
      | [] => none
      | ty :: rest =>
        if ty ≠ "" ∧ ty.toLower = "bearer" ∧ 0 < rest.length then
          some ((String.intercalate " " rest).trim)
        else none
  let workspaceId := jsOr (normalizeHeaderValue h.xContextstreamWorkspaceId)
    (normalizeHeaderValue h.xWorkspaceId)
  let projectId := jsOr (normalizeHeaderValue h.xContextstreamProjectId)
    (normalizeHeaderValue h.xProjectId)
  if jsTruthy jwtHeader then
    (some { jwt := jwtHeader, workspaceId := workspaceId, projectId := projectId },
      some .jwt)
  else if jsTruthy apiKey then
    (some { apiKey := apiKey, workspaceId := workspaceId, projectId := projectId },
      some .api_key)
  else if jsTruthy token then
    if looksLikeJwt (token.getD "") then
      (some { jwt := token, workspaceId := workspaceId, projectId := projectId },
        some .jwt)
    else
      (some { apiKey := token, workspaceId := workspaceId, projectId := projectId },
        some .api_key)
  else if jsTruthy workspaceId ∨ jsTruthy projectId then
    (some { workspaceId := workspaceId, projectId := projectId }, none)
  else
    (fallback, none)

/-- Per-session state the gateway keeps (SessionEntry, reduced to the fields
the gateway logic reads and writes; the owned protocol server, transport and
client objects carry no state relevant to these claims). -/
structure SessionEntry where
  authOverride : Option AuthOverride
  createdAt : Nat
  lastSeenAt : Nat
deriving DecidableEq

/-- The session registry: the gateway's map from session id to entry. -/
abbrev Registry := List (String × SessionEntry)

/-- Lookup in the session registry (Map.get). -/
def lookupSession (sid : String) : Registry → Option SessionEntry
  | [] => none
  | (k, v) :: rest => if k = sid then some v else lookupSession sid rest

/-- Insert or update a binding in the session registry (Map.set, and the
in-place mutation of an entry already referenced by the map). -/
def mapSet (sid : String) (e : SessionEntry) : Registry → Registry
  | [] => [(sid, e)]
  | (k, v) :: rest => if k = sid then (sid, e) :: rest else (k, v) :: mapSet sid e rest

/-- Observable outcome of handleMcpRequest: the 401 missing-token rejection,
the 404 unknown-session rejection, or delegation to the session's transport
executed inside runWithAuthOverride with the given overlay. -/
inductive GatewayOutcome where
  | unauthorized
  | unknownSession
  | handled (overlay : Option AuthOverride)
deriving DecidableEq

/-- handleMcpRequest of http-gateway.ts.  Inputs: whether auth is required
(REQUIRE_AUTH), the current registry, the request headers, the current time,
and the session id the transport assigns when a fresh session initializes
(entry.transport.sessionId; none when the transport assigned none).  Output:
the observable outcome and the updated registry.  Control flow follows the
source: resolve the session by the mcp-session-id header; extract the
override with the session's recorded override as fallback; reject 401 when
auth is required and the override carries no credential; reject 404 when a
(truthy) session id was presented but not found; otherwise use the existing
entry or create a fresh one, stamp last-seen, record a non-null override
onto the entry, delegate inside the overlay scope, and register a fresh
entry only under the transport-assigned id. -/
def handleMcpRequest (requireAuth : Bool) (sessions : Registry) (h : Headers)
    (now : Nat) (transportSessionId : Option String) : GatewayOutcome × Registry :=
  let sessionId := normalizeHeaderValue h.mcpSessionId
  let existingSession :=
    if jsTruthy sessionId then lookupSession (sessionId.getD "") sessions else none
  let extracted := extractAuthOverride h
    (match existingSession with
     | some e => e.authOverride
     | none => none)
  let override := extracted.1
  let token := jsOr (override.bind (fun o => o.jwt)) (override.bind (fun o => o.apiKey))
  if requireAuth ∧ ¬ jsTruthy token then
    (.unauthorized, sessions)
  else if jsTruthy sessionId ∧ existingSession = none then
    (.unknownSession, sessions)
  else
    let entry0 := match existingSession with
      | some e => e
      | none => { authOverride := none, createdAt := now, lastSeenAt := now }
    let entry1 := { entry0 with lastSeenAt := now }
    let entry2 := if override.isSome then { entry1 with authOverride := override } else entry1
    let sessions' :=
      match existingSession with
      | some _ => mapSet (sessionId.getD "") entry2 sessions
      | none =>
        if jsTruthy transportSessionId then
          mapSet (transportSessionId.getD "") entry2 sessions
        else sessions
    (.handled override, sessions')

/-- Response written by the gateway's top-level route handler: a plain JSON
response with a status and a flat body, or delegation to handleMcpRequest. -/
inductive GatewayResponse where
  | json (status : Nat) (body : List (String × String))
  | mcpHandled (outcome : GatewayOutcome)
deriving DecidableEq

/-- Route handler installed by runHttpGateway: a missing url is 404; the
/health path answers 200 with the server status and version before any
other check; any other non-MCP path is 404; non GET/POST/DELETE methods on
the MCP path are 405; otherwise the request is delegated to
handleMcpRequest. -/
def handleHttpRequest (mcpPath : String) (requireAuth : Bool) (version : String)
    (hasUrl : Bool) (pathname : String) (method : String) (h : Headers)
    (sessions : Registry) (now : Nat) (transportSessionId : Option String) :
    GatewayResponse × Registry :=
  if ¬ hasUrl then (.json 404 [("error", "Not found")], sessions)
  else if pathname = "/health" then
    (.json 200 [("status", "ok"), ("version", version)], sessions)
  else if pathname ≠ mcpPath then (.json 404 [("error", "Not found")], sessions)
  else if ¬ (method = "GET" ∨ method = "POST" ∨ method = "DELETE") then
    (.json 405 [("error", "Method not allowed")], sessions)
  else
    let handled := handleMcpRequest requireAuth sessions h now transportSessionId
    (.mcpHandled handled.1, handled.2)

/-! Concrete attempt oracles and gateway scenarios used as counterexamples
and witnesses below. -/

/-- Oracle whose first attempt yields status 408 and whose later attempts
succeed. -/
def o408 : Nat → AttemptOutcome
  | 0 => .response 408 none "request timeout"
  | _ => .response 200 none "ok"

/-- Oracle whose every attempt yields status 400. -/
def oBad400 : Nat → AttemptOutcome
  | _ => .response 400 none "bad request"

/-- Oracle whose first attempt hits the per-attempt timeout and whose later
attempts would succeed. -/
def oTimeoutThenOk : Nat → AttemptOutcome
  | 0 => .abortTimeout
  | _ => .response 200 none "ok"

/-- Oracle whose every attempt is aborted by the caller's signal. -/
def oCancel : Nat → AttemptOutcome
  | _ => .abortCancelled

/-- Oracle that is rate limited with a retry-after directive of 7 seconds,
then fails at network level, then succeeds. -/
def oRetryAfter : Nat → AttemptOutcome
  | 0 => .response 429 (some 7) "slow down"
  | 1 => .networkError "socket hang up"
  | _ => .response 200 none "ok"

/-- Overlay carrying only an API-key credential. -/
def overlayKeyOnly : AuthOverride := { apiKey := some "secret-key" }

/-- Overlay carrying only a token credential. -/
def overlayJwtOnly : AuthOverride := { jwt := some "a.b.c" }

/-- Overlay carrying no credential, only a workspace scope. -/
def overlayScopeOnlyW : AuthOverride := { workspaceId := some "w" }

/-- Previously recorded session overlay carrying a credential and a scope. -/
def priorOverlayC2 : AuthOverride := { apiKey := some "K", workspaceId := some "w1" }

/-- Session entry that recorded priorOverlayC2. -/
def entryC2 : SessionEntry :=
  { authOverride := some priorOverlayC2, createdAt := 0, lastSeenAt := 0 }

/-- Inbound headers presenting only a session id and a workspace scope
header, no credential. -/
def headersC2 : Headers :=
  { mcpSessionId := .single "s1", xContextstreamWorkspaceId := .single "w2" }

/-- The scope-only overlay extracted from headersC2. -/
def scopeOnlyC2 : AuthOverride := { workspaceId := some "w2" }

/-- Inbound headers presenting a session id unknown to the registry and
nothing else. -/
def headersGhost : Headers := { mcpSessionId := .single "ghost" }

/-! Helper lemmas about the retry loop, shared by the claim theorems. -/

/-- The loop makes at most as many attempts as it has fuel. -/
theorem requestGo_attempts_le (o : Nat → AttemptOutcome) (m b : Nat) :
    ∀ fuel attempt, (requestGo o m b attempt fuel).attemptsMade ≤ fuel := by
  intro fuel
  induction fuel with
  | zero => intro attempt; simp [requestGo]
  | succ fuel ih =>
    intro attempt
    cases ho : o attempt with
    | abortCancelled => simp [requestGo, ho]
    | abortTimeout => simp [requestGo, ho]
    | networkError msg =>
      by_cases hm : attempt < m
      · simpa [requestGo, ho, hm] using ih (attempt + 1)
      · simp [requestGo, ho, hm]
    | response status retryAfter body =>
      by_cases hok : isOk status
      · simp [requestGo, ho, hok]
      · by_cases hr : status ∈ RETRYABLE_STATUSES ∧ attempt < m
        · simpa [requestGo, ho, hok, hr] using ih (attempt + 1)
        · simp [requestGo, ho, hok, hr]

/-- Every attempt the loop moved past (all but the last attempt made) had a
retryable outcome and sat strictly below the retry budget. -/
theorem requestGo_retry_sound (o : Nat → AttemptOutcome) (m b : Nat) :
    ∀ fuel attempt i, i + 1 < (requestGo o m b attempt fuel).attemptsMade →
      retryableOutcome (o (attempt + i)) = true ∧ attempt + i < m := by
  intro fuel
  induction fuel with
  | zero => intro attempt i h; simp [requestGo] at h
  | succ fuel ih =>
    intro attempt i h
    cases ho : o attempt with
    | abortCancelled => simp [requestGo, ho] at h
    | abortTimeout => simp [requestGo, ho] at h
    | networkError msg =>
      by_cases hm : attempt < m
      · simp only [requestGo, ho, if_pos hm] at h
        cases i with
        | zero => exact ⟨by simp [retryableOutcome, ho], by simpa using hm⟩
        | succ j =>
          have e : attempt + (j + 1) = attempt + 1 + j := by omega
          rw [e]
          exact ih (attempt + 1) j (by omega)
      · simp [requestGo, ho, hm] at h
    | response status retryAfter body =>
      by_cases hok : isOk status
      · simp [requestGo, ho, hok] at h
      · by_cases hr : status ∈ RETRYABLE_STATUSES ∧ attempt < m
        · simp only [requestGo, ho, if_neg hok, if_pos hr] at h
          cases i with
          | zero =>
            refine ⟨?_, by simpa using hr.2⟩
            simp [retryableOutcome, ho, hok, hr.1]
          | succ j =>
            have e : attempt + (j + 1) = attempt + 1 + j := by omega
            rw [e]
            exact ih (attempt + 1) j (by omega)
        · simp [requestGo, ho, hok, hr] at h

/-- The delay recorded after the i-th retried attempt is the retry-after
directive times 1000 when the attempt outcome carried one, and the
exponential backoff from the base delay otherwise. -/
theorem requestGo_delay_spec (o : Nat → AttemptOutcome) (m b : Nat) :
    ∀ fuel attempt i, i + 1 < (requestGo o m b attempt fuel).attemptsMade →
      (requestGo o m b attempt fuel).delays.get? i =
        some (match retryAfterOf (o (attempt + i)) with
          | some n => n * 1000
          | none => b * 2 ^ (attempt + i)) := by
  intro fuel
  induction fuel with
  | zero => intro attempt i h; simp [requestGo] at h
  | succ fuel ih =>
    intro attempt i h
    cases ho : o attempt with
    | abortCancelled => simp [requestGo, ho] at h
    | abortTimeout => simp [requestGo, ho] at h
    | networkError msg =>
      by_cases hm : attempt < m
      · simp only [requestGo, ho, if_pos hm] at h ⊢
        cases i with
        | zero => simp [retryAfterOf, ho]
        | succ j =>
          have e : attempt + (j + 1) = attempt + 1 + j := by omega
          rw [e]
          simpa using ih (attempt + 1) j (by omega)
      · simp [requestGo, ho, hm] at h
    | response status retryAfter body =>
      by_cases hok : isOk status
      · simp [requestGo, ho, hok] at h
      · by_cases hr : status ∈ RETRYABLE_STATUSES ∧ attempt < m
        · simp only [requestGo, ho, if_neg hok, if_pos hr] at h ⊢
          cases i with
          | zero => simp [retryAfterOf, ho]
          | succ j =>
            have e : attempt + (j + 1) = attempt + 1 + j := by omega
            rw [e]
            simpa using ih (attempt + 1) j (by omega)
        · simp [requestGo, ho, hok, hr] at h

/-- On the reachable part of the loop (fuel plus attempt index equal to one
more than the budget, attempt within the budget), at least one attempt is
made and each retried attempt recorded exactly one delay. -/
theorem requestGo_shape (o : Nat → AttemptOutcome) (m b : Nat) :
    ∀ fuel attempt, attempt + fuel = m + 1 → attempt ≤ m →
      1 ≤ (requestGo o m b attempt fuel).attemptsMade ∧
      (requestGo o m b attempt fuel).delays.length + 1 =
        (requestGo o m b attempt fuel).attemptsMade := by
  intro fuel
  induction fuel with
  | zero => intro attempt hinv hle; omega
  | succ fuel ih =>
    intro attempt hinv hle
    cases ho : o attempt with
    | abortCancelled => simp [requestGo, ho]
    | abortTimeout => simp [requestGo, ho]
    | networkError msg =>
      by_cases hm : attempt < m
      · have := ih (attempt + 1) (by omega) (by omega)
        simp only [requestGo, ho, if_pos hm]
        constructor
        · omega
        · simpa using this.2
      · simp [requestGo, ho, hm]
    | response status retryAfter body =>
      by_cases hok : isOk status
      · simp [requestGo, ho, hok]
      · by_cases hr : status ∈ RETRYABLE_STATUSES ∧ attempt < m
        · have := ih (attempt + 1) (by omega) (by omega)
          simp only [requestGo, ho, if_neg hok, if_pos hr]
          constructor
          · omega
          · simpa using this.2
        · simp [requestGo, ho, hok, hr]

/-- A current attempt whose outcome is not retryable ends the loop at once:
exactly one attempt is made from that point. -/
theorem requestGo_not_retryable (o : Nat → AttemptOutcome) (m b : Nat)
    (fuel attempt : Nat) (hf : 1 ≤ fuel)
    (hnr : retryableOutcome (o attempt) = false) :
    (requestGo o m b attempt fuel).attemptsMade = 1 := by
  obtain ⟨fuel, rfl⟩ : ∃ f, fuel = f + 1 := ⟨fuel - 1, by omega⟩
  cases ho : o attempt with
  | abortCancelled => simp [requestGo, ho]
  | abortTimeout => simp [requestGo, ho]
  | networkError msg => simp [retryableOutcome, ho] at hnr
  | response status retryAfter body =>
    by_cases hok : isOk status
    · simp [requestGo, ho, hok]
    · simp only [retryableOutcome, ho, hok, Bool.not_false, Bool.true_and,
        decide_eq_false_iff_not] at hnr
      simp [requestGo, ho, hok, hnr]

/-- A current attempt aborted by the caller's signal ends the loop at once
with the dedicated cancellation error. -/
theorem requestGo_cancelled (o : Nat → AttemptOutcome) (m b : Nat)
    (fuel attempt : Nat) (hf : 1 ≤ fuel) (hc : o attempt = .abortCancelled) :
    requestGo o m b attempt fuel = ⟨.error cancelledError, 1, []⟩ := by
  obtain ⟨fuel, rfl⟩ : ∃ f, fuel = f + 1 := ⟨fuel - 1, by omega⟩
  simp [requestGo, hc]

/-- A current attempt aborted by the per-attempt timer ends the loop at once
with the dedicated timeout error. -/
theorem requestGo_timedOut (o : Nat → AttemptOutcome) (m b : Nat)
    (fuel attempt : Nat) (hf : 1 ≤ fuel) (hc : o attempt = .abortTimeout) :
    requestGo o m b attempt fuel = ⟨.error timeoutError, 1, []⟩ := by
  obtain ⟨fuel, rfl⟩ : ∃ f, fuel = f + 1 := ⟨fuel - 1, by omega⟩
  simp [requestGo, hc]

/-! Claim theorems. -/

/-- Claim C1: every outbound call of the dispatcher derives its identity
headers from whatever credential fields are present in the active auth
overlay for the current scope as read via getAuthOverride (the X-API-Key
header mirrors a truthy API key, the Authorization header carries the
bearer token for a truthy jwt), and a call made under an overlay carrying
neither credential is sent with no identity header (unauthenticated). -/
theorem c1_outbound_identity (overlay : AuthOverride) (ua : String) :
    lookupHeader "X-API-Key" (outboundHeaders (some (some overlay)) ua) =
      (if jsTruthy overlay.apiKey then overlay.apiKey else none) ∧
    lookupHeader "Authorization" (outboundHeaders (some (some overlay)) ua) =
      (if jsTruthy overlay.jwt then overlay.jwt.map (fun j => "Bearer " ++ j) else none) ∧
    (overlay.apiKey = none → overlay.jwt = none →
      lookupHeader "X-API-Key" (outboundHeaders (some (some overlay)) ua) = none ∧
      lookupHeader "Authorization" (outboundHeaders (some (some overlay)) ua) = none) := by
  rcases overlay with ⟨ak, jw, ws, pj⟩
  refine ⟨?_, ?_, ?_⟩
  · cases ak with
    | none =>
      cases jw with
      | none => simp [outboundHeaders, getAuthOverride, buildHeaders, lookupHeader, jsTruthy]
      | some j =>
        by_cases hj : j = "" <;>
          simp [outboundHeaders, getAuthOverride, buildHeaders, lookupHeader, jsTruthy, hj]
    | some k =>
      by_cases hk : k = "" <;> cases jw with
      | none => simp [outboundHeaders, getAuthOverride, buildHeaders, lookupHeader, jsTruthy, hk]
      | some j =>
        by_cases hj : j = "" <;>
          simp [outboundHeaders, getAuthOverride, buildHeaders, lookupHeader, jsTruthy, hk, hj]
  · cases jw with
    | none =>
      cases ak with
      | none => simp [outboundHeaders, getAuthOverride, buildHeaders, lookupHeader, jsTruthy]
      | some k =>
        by_cases hk : k = "" <;>
          simp [outboundHeaders, getAuthOverride, buildHeaders, lookupHeader, jsTruthy, hk]
    | some j =>
      by_cases hj : j = "" <;> cases ak with
      | none => simp [outboundHeaders, getAuthOverride, buildHeaders, lookupHeader, jsTruthy, hj]
      | some k =>
        by_cases hk : k = "" <;>
          simp [outboundHeaders, getAuthOverride, buildHeaders, lookupHeader, jsTruthy, hk, hj]
  · rintro rfl rfl
    simp [outboundHeaders, getAuthOverride, buildHeaders, lookupHeader]

/-- Witness for C1: a key-only overlay yields exactly the X-API-Key header,
a token-only overlay yields exactly the bearer Authorization header, and a
scope-only overlay yields neither identity header. -/
theorem c1_outbound_identity_witness :
    lookupHeader "X-API-Key"
        (outboundHeaders (some (some overlayKeyOnly)) "contextstream-mcp/0.1.0") =
      some "secret-key" ∧
    lookupHeader "Authorization"
        (outboundHeaders (some (some overlayJwtOnly)) "contextstream-mcp/0.1.0") =
      some "Bearer a.b.c" ∧
    (lookupHeader "X-API-Key"
        (outboundHeaders (some (some overlayScopeOnlyW)) "contextstream-mcp/0.1.0") = none ∧
     lookupHeader "Authorization"
        (outboundHeaders (some (some overlayScopeOnlyW)) "contextstream-mcp/0.1.0") = none) := by
  refine ⟨?_, ?_,
    (c1_outbound_identity overlayScopeOnlyW "contextstream-mcp/0.1.0").2.2 rfl rfl⟩
  · have := (c1_outbound_identity overlayKeyOnly "contextstream-mcp/0.1.0").1
    simpa [overlayKeyOnly, jsTruthy] using this
  · have := (c1_outbound_identity overlayJwtOnly "contextstream-mcp/0.1.0").2.1
    simpa [overlayJwtOnly, jsTruthy] using this

/-- Counterexample to claim C2 as stated: a request presenting only a
workspace scope header on a session whose recorded overlay carries the
credential K produces an effective overlay, and a written-back session
overlay, whose apiKey is none - the prior credential is not kept, the
overlay is replaced rather than merged; and under required authentication
the same request is rejected as unauthorized. -/
theorem c2_counterexample :
    priorOverlayC2.apiKey = some "K" ∧ scopeOnlyC2.apiKey = none ∧
    handleMcpRequest false [("s1", entryC2)] headersC2 5 none
      = (.handled (some scopeOnlyC2),
         [("s1", { authOverride := some scopeOnlyC2, createdAt := 0, lastSeenAt := 5 })]) ∧
    handleMcpRequest true [("s1", entryC2)] headersC2 5 none
      = (.unauthorized, [("s1", entryC2)]) := by decide

/-- Claim C2 amended: a request presenting only a workspace scope header
and no credential, on a session with any previously recorded overlay,
yields a scope-only effective overlay that replaces (not merges over) the
session's recorded overlay, dropping any prior credential, when the
gateway does not require authentication; when it does, the request is
rejected as unauthorized. -/
theorem c2_scope_only_replaces (sid ws : String) (e : SessionEntry) (rest : Registry)
    (now : Nat) (tsid : Option String) (hsid : sid ≠ "") (hws : ws ≠ "") :
    handleMcpRequest false ((sid, e) :: rest)
        { mcpSessionId := .single sid, xContextstreamWorkspaceId := .single ws } now tsid
      = (.handled (some { workspaceId := some ws }),
         (sid, { authOverride := some { workspaceId := some ws },
                 createdAt := e.createdAt, lastSeenAt := now }) :: rest) ∧
    handleMcpRequest true ((sid, e) :: rest)
        { mcpSessionId := .single sid, xContextstreamWorkspaceId := .single ws } now tsid
      = (.unauthorized, (sid, e) :: rest) := by
  constructor <;>
    simp [handleMcpRequest, extractAuthOverride, normalizeHeaderValue, jsTruthy, jsOr,
      lookupSession, mapSet, hsid, hws]

/-- Witness for the amended C2 at the concrete scenario of the
counterexample. -/
theorem c2_scope_only_replaces_witness :
    handleMcpRequest false [("s1", entryC2)]
        { mcpSessionId := .single "s1", xContextstreamWorkspaceId := .single "w2" } 5 none
      = (.handled (some { workspaceId := some "w2" }),
         [("s1", { authOverride := some { workspaceId := some "w2" },
                   createdAt := entryC2.createdAt, lastSeenAt := 5 })]) ∧
    handleMcpRequest true [("s1", entryC2)]
        { mcpSessionId := .single "s1", xContextstreamWorkspaceId := .single "w2" } 5 none
      = (.unauthorized, [("s1", entryC2)]) :=
  c2_scope_only_replaces "s1" "w2" entryC2 [] 5 none (by decide) (by decide)

/-- Counterexample to claim C3 as stated: a first attempt answered with
status 408 is classified UNKNOWN_ERROR, a kind the claim lists as
terminating immediately, yet the dispatcher retries it and the call
succeeds on the second attempt. -/
theorem c3_counterexample :
    statusToCode 408 = "UNKNOWN_ERROR" ∧
    request o408 none none = ⟨.ok "ok", 2, [1000]⟩ := by decide

/-- Claim C3 amended: an attempt is retried only if it failed at network
level or its status is one of 408, 429, 500, 502, 503, 504 (the code's
RETRYABLE_STATUSES; note 408 classifies as unknown yet is retryable) and
the attempt count has not exhausted the configured maximum; a first attempt
with any other outcome ends the call with exactly one attempt. -/
theorem c3_retry_eligibility (o : Nat → AttemptOutcome) (retries retryDelay : Option Nat) :
    (∀ i, i + 1 < (request o retries retryDelay).attemptsMade →
      retryableOutcome (o i) = true ∧ i < retries.getD MAX_RETRIES)
    ∧ (retryableOutcome (o 0) = false →
        (request o retries retryDelay).attemptsMade = 1) := by
  constructor
  · intro i h
    have := requestGo_retry_sound o (retries.getD MAX_RETRIES) (retryDelay.getD BASE_DELAY)
      (retries.getD MAX_RETRIES + 1) 0 i (by simpa [request] using h)
    simpa using this
  · intro h
    have := requestGo_not_retryable o (retries.getD MAX_RETRIES) (retryDelay.getD BASE_DELAY)
      (retries.getD MAX_RETRIES + 1) 0 (by omega) h
    simpa [request] using this

/-- Witness for the amended C3: the retried 408 attempt was retryable and
within budget, and a 400 response ends the call after one attempt. -/
theorem c3_retry_eligibility_witness :
    (retryableOutcome (o408 0) = true ∧ 0 < MAX_RETRIES) ∧
    (request oBad400 none none).attemptsMade = 1 :=
  ⟨(c3_retry_eligibility o408 none none).1 0 (by decide),
   (c3_retry_eligibility oBad400 none none).2 (by decide)⟩

/-- Counterexample to claim C4 as stated: a first attempt aborted by the
per-attempt timer ends the call at once with the timeout error, although
the default budget of 3 retries remained and the next attempt would have
succeeded - a timed-out attempt is not eligible for retry. -/
theorem c4_counterexample :
    request oTimeoutThenOk none none = ⟨.error timeoutError, 1, []⟩ ∧
    oTimeoutThenOk 1 = .response 200 none "ok" ∧
    MAX_RETRIES = 3 := by decide

/-- Claim C4 amended: a dispatch attempt that exceeds the fixed per-attempt
timeout without the caller's signal having fired is aborted and classified
as a network-level error (timeout variant, status signal 0, code
NETWORK_ERROR), and the call terminates immediately with that error - the
timed-out attempt is not retried, regardless of remaining budget. -/
theorem c4_timeout_terminal (o : Nat → AttemptOutcome) (retries retryDelay : Option Nat)
    (m b attempt fuel : Nat) :
    (1 ≤ fuel → o attempt = .abortTimeout →
      requestGo o m b attempt fuel = ⟨.error timeoutError, 1, []⟩)
    ∧ (o 0 = .abortTimeout →
        request o retries retryDelay = ⟨.error timeoutError, 1, []⟩)
    ∧ timeoutError.code = "NETWORK_ERROR"
    ∧ timeoutError.message = "Request timeout after 180 seconds" := by
  refine ⟨requestGo_timedOut o m b fuel attempt, ?_, by decide, rfl⟩
  intro h
  exact requestGo_timedOut o (retries.getD MAX_RETRIES) (retryDelay.getD BASE_DELAY)
    (retries.getD MAX_RETRIES + 1) 0 (by omega) h

/-- Witness for the amended C4 at a concrete timed-out first attempt. -/
theorem c4_timeout_terminal_witness :
    requestGo oTimeoutThenOk 3 1000 0 4 = ⟨.error timeoutError, 1, []⟩ ∧
    request oTimeoutThenOk none none = ⟨.error timeoutError, 1, []⟩ :=
  ⟨(c4_timeout_terminal oTimeoutThenOk none none 3 1000 0 4).1 (by decide) rfl,
   (c4_timeout_terminal oTimeoutThenOk none none 3 1000 0 4).2.1 rfl⟩

/-- Claim C5: when the caller's cancellation signal aborts the in-flight
attempt, the call ends immediately with the dedicated cancelled-by-user
error (its message distinguishes it from the timeout and from retry-path
network failures), exactly one attempt is made from that point, and no
further attempts follow regardless of the remaining retry budget. -/
theorem c5_cancelled_by_caller (o : Nat → AttemptOutcome) (retries retryDelay : Option Nat)
    (m b attempt fuel : Nat) :
    (1 ≤ fuel → o attempt = .abortCancelled →
      requestGo o m b attempt fuel = ⟨.error cancelledError, 1, []⟩)
    ∧ (o 0 = .abortCancelled →
        request o retries retryDelay = ⟨.error cancelledError, 1, []⟩)
    ∧ cancelledError.message = "Request cancelled by user"
    ∧ cancelledError ≠ timeoutError := by
  refine ⟨requestGo_cancelled o m b fuel attempt, ?_, rfl, by decide⟩
  intro h
  exact requestGo_cancelled o (retries.getD MAX_RETRIES) (retryDelay.getD BASE_DELAY)
    (retries.getD MAX_RETRIES + 1) 0 (by omega) h

/-- Witness for C5: cancellation at a mid-loop attempt and at the first
attempt of a call with a generous retry budget both end with the cancelled
outcome after one attempt. -/
theorem c5_cancelled_by_caller_witness :
    requestGo oCancel 3 1000 2 2 = ⟨.error cancelledError, 1, []⟩ ∧
    request oCancel (some 5) none = ⟨.error cancelledError, 1, []⟩ :=
  ⟨(c5_cancelled_by_caller oCancel (some 5) none 3 1000 2 2).1 (by decide) rfl,
   (c5_cancelled_by_caller oCancel (some 5) none 3 1000 2 2).2.1 rfl⟩

/-- Claim C6: the delay slept after the i-th retried attempt is the
retry-after directive (N seconds, recorded as N times 1000 milliseconds)
whenever the failing response carried one, overriding the exponential
default; with no directive it is the base delay times 2 to the attempt
index. -/
theorem c6_retry_delay (o : Nat → AttemptOutcome) (retries retryDelay : Option Nat)
    (i : Nat) (h : i + 1 < (request o retries retryDelay).attemptsMade) :
    (request o retries retryDelay).delays.get? i =
      some (match retryAfterOf (o i) with
        | some n => n * 1000
        | none => retryDelay.getD BASE_DELAY * 2 ^ i) := by
  have := requestGo_delay_spec o (retries.getD MAX_RETRIES) (retryDelay.getD BASE_DELAY)
    (retries.getD MAX_RETRIES + 1) 0 i (by simpa [request] using h)
  simpa [request] using this

/-- Witness for C6: a 429 response with a retry-after directive of 7
seconds is followed by a 7000 millisecond delay, and the directive-free
network failure on the next attempt by the exponential 2000 millisecond
delay. -/
theorem c6_retry_delay_witness :
    (request oRetryAfter none none).delays.get? 0 = some 7000 ∧
    (request oRetryAfter none none).delays.get? 1 = some 2000 := by
  have h0 := c6_retry_delay oRetryAfter none none 0 (by decide)
  have h1 := c6_retry_delay oRetryAfter none none 1 (by decide)
  constructor
  · simpa [oRetryAfter, retryAfterOf] using h0
  · simpa [oRetryAfter, retryAfterOf, BASE_DELAY] using h1

/-- Claim C7: every logical call makes at least one and at most
maxRetries plus one attempts (at most 4 with the default MAX_RETRIES of 3),
the attempt index increases strictly one by one (each retried attempt
recording exactly one delay, so delays count attempts made minus one), and
the run yields a single final trace - the caller observes one decoded
success payload or one classified error, never individual failed
attempts. -/
theorem c7_attempt_budget (o : Nat → AttemptOutcome) (retries retryDelay : Option Nat) :
    1 ≤ (request o retries retryDelay).attemptsMade ∧
    (request o retries retryDelay).attemptsMade ≤ retries.getD MAX_RETRIES + 1 ∧
    (request o retries retryDelay).delays.length + 1 =
      (request o retries retryDelay).attemptsMade := by
  have h1 := requestGo_shape o (retries.getD MAX_RETRIES) (retryDelay.getD BASE_DELAY)
    (retries.getD MAX_RETRIES + 1) 0 (by omega) (by omega)
  have h2 := requestGo_attempts_le o (retries.getD MAX_RETRIES) (retryDelay.getD BASE_DELAY)
    (retries.getD MAX_RETRIES + 1) 0
  exact ⟨by simpa [request] using h1.1, by simpa [request] using h2,
    by simpa [request] using h1.2⟩

/-- Counterexample to claim C8 as stated: a request presenting the unknown
session id ghost with no credential, under the default required
authentication, is rejected as unauthorized - not with the unknown-session
outcome the claim promises for every such request. -/
theorem c8_counterexample :
    handleMcpRequest true [] headersGhost 0 none = (.unauthorized, []) ∧
    GatewayOutcome.unauthorized ≠ GatewayOutcome.unknownSession ∧
    lookupSession "ghost" [] = none := by decide

/-- Claim C8 amended: a request presenting a session id not found in the
registry is always rejected before any dispatch with the registry left
unchanged (no replacement session is ever created for it); the outcome is
the unknown-session rejection whenever the credential check passes (auth
not required, or a credential present in the extracted override), and the
unauthorized rejection otherwise, since the gateway checks credentials
first. -/
theorem c8_unknown_session (requireAuth : Bool) (sessions : Registry) (h : Headers)
    (sid : String) (now : Nat) (tsid : Option String)
    (hsid : normalizeHeaderValue h.mcpSessionId = some sid) (hne : sid ≠ "")
    (hmiss : lookupSession sid sessions = none) :
    (handleMcpRequest requireAuth sessions h now tsid).2 = sessions ∧
    ((handleMcpRequest requireAuth sessions h now tsid).1 = .unauthorized ∨
      (handleMcpRequest requireAuth sessions h now tsid).1 = .unknownSession) ∧
    (requireAuth = false →
      (handleMcpRequest requireAuth sessions h now tsid).1 = .unknownSession) ∧
    (jsTruthy (jsOr ((extractAuthOverride h none).1.bind (fun o => o.jwt))
        ((extractAuthOverride h none).1.bind (fun o => o.apiKey))) = true →
      (handleMcpRequest requireAuth sessions h now tsid).1 = .unknownSession) := by
  have h1 : jsTruthy (some sid) = true := by simp [jsTruthy, hne]
  by_cases hra : requireAuth = true
  · by_cases htok : jsTruthy (jsOr ((extractAuthOverride h none).1.bind (fun o => o.jwt))
        ((extractAuthOverride h none).1.bind (fun o => o.apiKey))) = true
    · refine ⟨?_, ?_, ?_, ?_⟩ <;>
        simp [handleMcpRequest, hsid, h1, hmiss, hra, htok]
    · refine ⟨?_, ?_, ?_, ?_⟩ <;>
        simp [handleMcpRequest, hsid, h1, hmiss, hra, htok]
  · have hra' : requireAuth = false := by revert hra; cases requireAuth <;> simp
    refine ⟨?_, ?_, ?_, ?_⟩ <;>
      simp [handleMcpRequest, hsid, h1, hmiss, hra']

/-- Witness for the amended C8: with authentication not required, the
unknown session id ghost is rejected with the unknown-session outcome and
the registry stays empty. -/
theorem c8_unknown_session_witness :
    (handleMcpRequest false [] headersGhost 0 none).2 = ([] : Registry) ∧
    (handleMcpRequest false [] headersGhost 0 none).1 = .unknownSession :=
  ⟨(c8_unknown_session false [] headersGhost "ghost" 0 none rfl (by decide) rfl).1,
   (c8_unknown_session false [] headersGhost "ghost" 0 none rfl (by decide) rfl).2.2.1 rfl⟩

/-- Claim C10: a request whose url path is /health is answered 200 with the
server status and version for every method, every header set (no credential
needed), every registry and even when the gateway requires authentication,
and the session registry is returned unchanged - no session is created or
modified. -/
theorem c10_health_endpoint (mcpPath : String) (requireAuth : Bool) (version : String)
    (method : String) (h : Headers) (sessions : Registry) (now : Nat)
    (tsid : Option String) :
    handleHttpRequest mcpPath requireAuth version true "/health" method h sessions now tsid
      = (.json 200 [("status", "ok"), ("version", version)], sessions) := by
  simp [handleHttpRequest]

end ContextStream
